import Mathlib

/-!
Verification of the change-event envelope model in `src/lib.rs`.

The Rust crate defines a generic event data model (`Location`,
`AppendableResource`, `UpdatableResource`, `ResourceId`, `EventVerb`,
`Event`), a transport frame (`WsBody`) with a JSON serialization helper,
and two capability traits (`Appendable`, `Syncable`) whose default
methods construct well-formed events.

This file gives a shallow embedding of that code.  Rust structs become
Lean structures with the same fields; the serde-derived JSON
serialization (including the `#[serde(tag = "type", content = "payload",
rename_all = "snake_case")]` attribute on `EventVerb`) is modelled by an
explicit `Json` syntax tree and a compact renderer matching
`serde_json::to_string` output.  The trait default methods become
functions parameterised by the trait's required methods (`collection`,
`id`).  `u32` values are modelled as `Nat`: the code performs no
arithmetic on them, so wrap-around never matters.
-/

namespace Rsp

/-! ## JSON values and the compact renderer (model of serde_json output) -/

/-- A JSON value as produced by the serde derives used in the crate:
only `null`, non-negative numbers, strings and objects occur. -/
inductive Json where
  | null : Json
  | num (n : Nat) : Json
  | str (s : String) : Json
  | obj (fields : List (String × Json)) : Json

/-- Lower-case hexadecimal digit, as used by serde_json `\u00XX` escapes. -/
def hexDigit (n : Nat) : String :=
  String.singleton (if n < 10 then Char.ofNat (48 + n) else Char.ofNat (87 + n))

/-- serde_json escaping of a single character inside a JSON string:
quote and backslash are escaped, control characters use the short forms
`\b \t \n \f \r` or `\u00XX`. -/
def escapeChar (c : Char) : String :=
  if c = Char.ofNat 34 then "\\\"" else
  if c = Char.ofNat 92 then "\\\\" else
  if c = Char.ofNat 8 then "\\b" else
  if c = Char.ofNat 9 then "\\t" else
  if c = Char.ofNat 10 then "\\n" else
  if c = Char.ofNat 12 then "\\f" else
  if c = Char.ofNat 13 then "\\r" else
  if c.toNat < 32 then "\\u00" ++ hexDigit (c.toNat / 16) ++ hexDigit (c.toNat % 16)
  else String.singleton c

def escapeString (s : String) : String :=
  s.toList.foldl (fun acc c => acc ++ escapeChar c) ""

/-- A JSON string literal: quotes around the escaped content. -/
def renderString (s : String) : String :=
  "\"" ++ escapeString s ++ "\""

mutual

/-- Compact rendering, exactly as `serde_json::to_string`: no spaces,
fields in declaration order. -/
def Json.render : Json → String
  | .null => "null"
  | .num n => Nat.repr n
  | .str s => renderString s
  | .obj fs => "\x7b" ++ renderFields fs ++ "\x7d"

def renderFields : List (String × Json) → String
  | [] => ""
  | [(k, v)] => renderString k ++ ":" ++ Json.render v
  | (k, v) :: fs => renderString k ++ ":" ++ Json.render v ++ "," ++ renderFields fs

end

/-! ## Data model (structs and enums of `src/lib.rs`) -/

/-- `pub struct Location<ID, C> { id: Option<ID>, txn_id: Option<u32>, collection: C }` -/
structure Location (ID C : Type) where
  id : Option ID
  txn_id : Option Nat
  collection : C

/-- `pub struct UpdatableResource<I, T, C> { location: Location<I, C>, data: T }` -/
structure UpdatableResource (I T C : Type) where
  location : Location I C
  data : T

/-- `pub struct AppendableResource<ID, T, C> { location: Location<ID, C>, data: T }` -/
structure AppendableResource (ID T C : Type) where
  location : Location ID C
  data : T

/-- `pub struct ResourceId(u32)` -/
structure ResourceId where
  val : Nat

/-- `pub enum EventVerb<ID, T, C>` with variants Insert / Update / Upsert / Delete. -/
inductive EventVerb (ID T C : Type) where
  | insert (r : AppendableResource ID T C)
  | update (r : UpdatableResource ID T C)
  | upsert (r : UpdatableResource ID T C)
  | delete (r : ResourceId)

/-- `pub struct Event<ID, T, C> { verb: EventVerb<ID, T, C> }` -/
structure Event (ID T C : Type) where
  verb : EventVerb ID T C

/-- `Event::new` -/
def Event.new {ID T C : Type} (verb : EventVerb ID T C) : Event ID T C :=
  { verb := verb }

/-- `pub struct WsBody<T> { data: T }` -/
structure WsBody (T : Type) where
  data : T

/-- `WsBody::new` -/
def WsBody.new {T : Type} (data : T) : WsBody T :=
  { data := data }

/-- `impl<T> From<T> for WsBody<T>`: `fn from(data: T) -> Self { Self::new(data) }` -/
def WsBody.fromData {T : Type} (data : T) : WsBody T :=
  WsBody.new data

/-- Outcome of running Rust code that may panic: either a value or a
process-aborting panic with its message. -/
inductive PanicOr (α : Type) where
  | panicked (msg : String)
  | value (a : α)
deriving DecidableEq

/-- `WsBody::json`: `serde_json::to_string(&self).expect("Could not serialize WsBody<T> to JSON")`.
The serde serialization of the wrapped `T` is passed in as a function
returning `Except` (serde serializers are fallible); `.expect` turns its
error case into a panic. -/
def WsBody.json {T : Type} (toJsonString : WsBody T → Except String String)
    (self : WsBody T) : PanicOr String :=
  match toJsonString self with
  | .ok s => .value s
  | .error _ => .panicked "Could not serialize WsBody<T> to JSON"

/-! ## Capability traits `Appendable` and `Syncable`

A trait impl is modelled by its required methods passed as functions:
`collection : T → C` for `Appendable`, additionally `idf : T → ID` for
`Syncable` (`fn id`). The default methods become the functions below. -/

/-- The `AppendableResource` built inside `Appendable::to_event`:
`Location { id: None, txn_id: None, collection: self.collection() }`
paired with `data: self`. -/
def appendableResourceFor {ID T C : Type} (collection : T → C) (self : T) :
    AppendableResource ID T C :=
  { location := { id := none, txn_id := none, collection := collection self }
    data := self }

/-- `Appendable::to_event` (the `ID` type is the unit type `()` in the source). -/
def appendable_to_event {T C : Type} (collection : T → C) (self : T)
    (build_verb : AppendableResource Unit T C → EventVerb Unit T C) :
    Event Unit T C :=
  Event.new (build_verb (appendableResourceFor collection self))

/-- `Appendable::to_insert_event`: `to_event(self, EventVerb::Insert)`. -/
def to_insert_event {T C : Type} (collection : T → C) (self : T) : Event Unit T C :=
  appendable_to_event collection self EventVerb.insert

/-- The `UpdatableResource` built inside `Syncable::to_event`:
`Location { id: Some(self.id()), txn_id: None, collection: self.collection() }`
paired with `data: self`. -/
def updatableResourceFor {ID T C : Type} (collection : T → C) (idf : T → ID)
    (self : T) : UpdatableResource ID T C :=
  { location := { id := some (idf self), txn_id := none, collection := collection self }
    data := self }

/-- `Syncable::to_event`. -/
def syncable_to_event {ID T C : Type} (collection : T → C) (idf : T → ID)
    (self : T)
    (build_verb : UpdatableResource ID T C → EventVerb ID T C) :
    Event ID T C :=
  Event.new (build_verb (updatableResourceFor collection idf self))

/-- `Syncable::to_upsert_event`: `to_event(self, EventVerb::Upsert)`. -/
def to_upsert_event {ID T C : Type} (collection : T → C) (idf : T → ID)
    (self : T) : Event ID T C :=
  syncable_to_event collection idf self EventVerb.upsert

/-- `Syncable::to_update_event`: `to_event(self, EventVerb::Update)`. -/
def to_update_event {ID T C : Type} (collection : T → C) (idf : T → ID)
    (self : T) : Event ID T C :=
  syncable_to_event collection idf self EventVerb.update

/-! ## serde-derived serialization of the data model

Each function mirrors the `#[derive(Serialize)]` output for its type:
struct fields in declaration order, `Option` as `null`/value, newtype
structs transparent, and `EventVerb` adjacently tagged via
`#[serde(tag = "type", content = "payload", rename_all = "snake_case")]`. -/

def serOption {α : Type} (serA : α → Json) : Option α → Json
  | none => Json.null
  | some a => serA a

def serLocation {ID C : Type} (serId : ID → Json) (serC : C → Json)
    (l : Location ID C) : Json :=
  Json.obj [("id", serOption serId l.id),
            ("txn_id", serOption Json.num l.txn_id),
            ("collection", serC l.collection)]

def serAppendableResource {ID T C : Type} (serId : ID → Json) (serT : T → Json)
    (serC : C → Json) (r : AppendableResource ID T C) : Json :=
  Json.obj [("location", serLocation serId serC r.location), ("data", serT r.data)]

def serUpdatableResource {ID T C : Type} (serId : ID → Json) (serT : T → Json)
    (serC : C → Json) (r : UpdatableResource ID T C) : Json :=
  Json.obj [("location", serLocation serId serC r.location), ("data", serT r.data)]

/-- Newtype struct: serializes as the wrapped value. -/
def serResourceId (r : ResourceId) : Json :=
  Json.num r.val

/-- The snake_case tag of an `EventVerb` variant
(`rename_all = "snake_case"`). -/
def verbTag {ID T C : Type} : EventVerb ID T C → String
  | .insert _ => "insert"
  | .update _ => "update"
  | .upsert _ => "upsert"
  | .delete _ => "delete"

/-- The serialized payload carried by an `EventVerb` variant. -/
def verbPayload {ID T C : Type} (serId : ID → Json) (serT : T → Json)
    (serC : C → Json) : EventVerb ID T C → Json
  | .insert r => serAppendableResource serId serT serC r
  | .update r => serUpdatableResource serId serT serC r
  | .upsert r => serUpdatableResource serId serT serC r
  | .delete r => serResourceId r

/-- Adjacently tagged enum: `{"type": <tag>, "payload": <content>}`. -/
def serEventVerb {ID T C : Type} (serId : ID → Json) (serT : T → Json)
    (serC : C → Json) (v : EventVerb ID T C) : Json :=
  Json.obj [("type", Json.str (verbTag v)), ("payload", verbPayload serId serT serC v)]

def serEvent {ID T C : Type} (serId : ID → Json) (serT : T → Json)
    (serC : C → Json) (e : Event ID T C) : Json :=
  Json.obj [("verb", serEventVerb serId serT serC e.verb)]

def serWsBody {T : Type} (serT : T → Json) (b : WsBody T) : Json :=
  Json.obj [("data", serT b.data)]

/-- `WsBody::json` instantiated with the serde_json serializer of the
wrapped value: serialization of the model types always succeeds, so the
`to_string` argument is the total AST serializer followed by rendering. -/
def wsBodyJson {T : Type} (serT : T → Json) (b : WsBody T) : PanicOr String :=
  WsBody.json (fun b2 => Except.ok (Json.render (serWsBody serT b2))) b

/-! ## The concrete domain type of the crate's test (`DoggoRecord`) -/

/-- `struct DoggoRecord { id: u32, name: String, breed: String }` -/
structure DoggoRecord where
  id : Nat
  name : String
  breed : String

/-- `enum Collection { Dogs, Cats }` -/
inductive Collection where
  | Dogs
  | Cats

/-- `impl Appendable for DoggoRecord`: `fn collection(&self)` returns `Collection::Dogs`. -/
def DoggoRecord.collection (_ : DoggoRecord) : Collection :=
  Collection.Dogs

/-- serde: unit enum variants serialize as their name string. -/
def serCollection : Collection → Json
  | .Dogs => Json.str "Dogs"
  | .Cats => Json.str "Cats"

def serDoggoRecord (d : DoggoRecord) : Json :=
  Json.obj [("id", Json.num d.id), ("name", Json.str d.name), ("breed", Json.str d.breed)]

/-- The record of the crate's `conversion_works` test. -/
def doggo : DoggoRecord :=
  { id := 1, name := "Barky", breed := "Poodle" }

/-! ## Id-presence invariant and constructible verbs -/

/-- The id-presence invariant of §3 of the spec: `location.id` is `None`
for an insert, `Some` for an update or upsert; a delete carries no
location. -/
def idPresence {ID T C : Type} : EventVerb ID T C → Prop
  | .insert r => r.location.id = none
  | .update r => r.location.id.isSome = true
  | .upsert r => r.location.id.isSome = true
  | .delete _ => True

/-- The `EventVerb` values application code can build.  The fields of
`Location`, the resource wrappers and `ResourceId` are private, so the
only resources a caller-supplied `build_verb` closure can ever put into a
verb are ones the trait layer built: `AppendableResource`s from
`Appendable::to_event` (id `None`) and `UpdatableResource`s from
`Syncable::to_event` (id `Some(d.id())`); by trait coherence a single
`collection`/`id` implementation governs each domain type. -/
inductive ConstructibleVerb {ID T C : Type} (collection : T → C) (idf : T → ID) :
    EventVerb ID T C → Prop
  | insert (d : T) :
      ConstructibleVerb collection idf (EventVerb.insert (appendableResourceFor collection d))
  | update (d : T) :
      ConstructibleVerb collection idf (EventVerb.update (updatableResourceFor collection idf d))
  | upsert (d : T) :
      ConstructibleVerb collection idf (EventVerb.upsert (updatableResourceFor collection idf d))
  | delete (r : ResourceId) :
      ConstructibleVerb collection idf (EventVerb.delete r)

/-! ## Claims -/

/-- Claim C1: for every domain value `d` with an `Appendable`
implementation, `to_insert_event d` is an `Event` whose verb is `Insert`
wrapping an `AppendableResource` whose location has `id = None`,
`txn_id = None` and `collection = d.collection()`, and whose `data` field
is `d` itself. -/
theorem to_insert_event_spec {T C : Type} (collection : T → C) (d : T) :
    ∃ r : AppendableResource Unit T C,
      (to_insert_event collection d).verb = EventVerb.insert r ∧
      r.location.id = none ∧
      r.location.txn_id = none ∧
      r.location.collection = collection d ∧
      r.data = d :=
  ⟨appendableResourceFor collection d, rfl, rfl, rfl, rfl, rfl⟩

/-- Claim C2: for every domain value `d` with a `Syncable`
implementation, `to_upsert_event d` and `to_update_event d` are `Event`s
whose locations have `id = Some(d.id())` and `txn_id = None`, with
`collection = d.collection()`, wrapped in `EventVerb::Upsert` and
`EventVerb::Update` respectively. -/
theorem sync_events_spec {ID T C : Type} (collection : T → C) (idf : T → ID) (d : T) :
    (∃ r : UpdatableResource ID T C,
      (to_upsert_event collection idf d).verb = EventVerb.upsert r ∧
      r.location.id = some (idf d) ∧
      r.location.txn_id = none ∧
      r.location.collection = collection d ∧
      r.data = d) ∧
    (∃ r : UpdatableResource ID T C,
      (to_update_event collection idf d).verb = EventVerb.update r ∧
      r.location.id = some (idf d) ∧
      r.location.txn_id = none ∧
      r.location.collection = collection d ∧
      r.data = d) :=
  ⟨⟨updatableResourceFor collection idf d, rfl, rfl, rfl, rfl, rfl⟩,
   ⟨updatableResourceFor collection idf d, rfl, rfl, rfl, rfl, rfl⟩⟩

/-- Claim C8: the named convenience constructors equal the lower-level
`to_event` hooks applied with the corresponding verb constructor, and
`to_upsert_event` / `to_update_event` wrap identical `UpdatableResource`
payloads, differing only in the verb variant. -/
theorem convenience_equals_hook {ID T C : Type} (collection : T → C)
    (idf : T → ID) (d : T) :
    to_insert_event collection d = appendable_to_event collection d EventVerb.insert ∧
    to_upsert_event collection idf d = syncable_to_event collection idf d EventVerb.upsert ∧
    to_update_event collection idf d = syncable_to_event collection idf d EventVerb.update ∧
    (∃ r : UpdatableResource ID T C,
      (to_upsert_event collection idf d).verb = EventVerb.upsert r ∧
      (to_update_event collection idf d).verb = EventVerb.update r) :=
  ⟨rfl, rfl, rfl, updatableResourceFor collection idf d, rfl, rfl⟩

/-- Claim C9: the capability-trait operations are infallible total pure
data transformations: their bodies contain no fallible or panicking
construct, so in the embedding each is a total function, and for every
domain value and every verb-building closure the returned `Event` is the
explicit value below. -/
theorem capability_operations_total {ID T C : Type} (collection : T → C)
    (idf : T → ID) (d : T)
    (build_app : AppendableResource Unit T C → EventVerb Unit T C)
    (build_upd : UpdatableResource ID T C → EventVerb ID T C) :
    to_insert_event collection d
      = Event.new (EventVerb.insert (appendableResourceFor collection d)) ∧
    to_upsert_event collection idf d
      = Event.new (EventVerb.upsert (updatableResourceFor collection idf d)) ∧
    to_update_event collection idf d
      = Event.new (EventVerb.update (updatableResourceFor collection idf d)) ∧
    appendable_to_event collection d build_app
      = Event.new (build_app (appendableResourceFor collection d)) ∧
    syncable_to_event collection idf d build_upd
      = Event.new (build_upd (updatableResourceFor collection idf d)) :=
  ⟨rfl, rfl, rfl, rfl, rfl⟩

/-- Claim C3: framing the insert event of the record
`{id: 1, name: "Barky", breed: "Poodle"}` (collection `Dogs`) in a
`WsBody` and serializing yields exactly the insert JSON string of the
crate's `conversion_works` snapshot test, and the upsert event of the
same record yields exactly the upsert JSON string. -/
theorem conversion_works_json :
    wsBodyJson (serEvent (fun _ : Unit => Json.null) serDoggoRecord serCollection)
        (WsBody.new (to_insert_event DoggoRecord.collection doggo))
      = PanicOr.value "\x7b\"data\":\x7b\"verb\":\x7b\"type\":\"insert\",\"payload\":\x7b\"location\":\x7b\"id\":null,\"txn_id\":null,\"collection\":\"Dogs\"\x7d,\"data\":\x7b\"id\":1,\"name\":\"Barky\",\"breed\":\"Poodle\"\x7d\x7d\x7d\x7d\x7d" ∧
    wsBodyJson (serEvent Json.num serDoggoRecord serCollection)
        (WsBody.new (to_upsert_event DoggoRecord.collection DoggoRecord.id doggo))
      = PanicOr.value "\x7b\"data\":\x7b\"verb\":\x7b\"type\":\"upsert\",\"payload\":\x7b\"location\":\x7b\"id\":1,\"txn_id\":null,\"collection\":\"Dogs\"\x7d,\"data\":\x7b\"id\":1,\"name\":\"Barky\",\"breed\":\"Poodle\"\x7d\x7d\x7d\x7d\x7d" :=
  ⟨rfl, rfl⟩

/-- Claim C4: serializing an `Event` whose verb is
`EventVerb::Delete(ResourceId(1))` framed in a `WsBody` yields exactly
the string with the bare numeric resource id as the delete payload, for
any id/data/collection serializers. -/
theorem delete_event_json {ID T C : Type} (serId : ID → Json) (serT : T → Json)
    (serC : C → Json) :
    wsBodyJson (serEvent serId serT serC)
        (WsBody.new (Event.new (EventVerb.delete { val := 1 }) : Event ID T C))
      = PanicOr.value "\x7b\"data\":\x7b\"verb\":\x7b\"type\":\"delete\",\"payload\":1\x7d\x7d\x7d" :=
  rfl

/-- Claim C5: every `Event` serializes as an object with a single `verb`
field whose value is an object with exactly the two fields `type` and
`payload`; `type` holds the snake_case name of the constructed variant
and `payload` holds exactly that variant's wrapped value serialized
structurally with its field names preserved. -/
theorem event_serialization_shape {ID T C : Type} (serId : ID → Json)
    (serT : T → Json) (serC : C → Json) (e : Event ID T C) :
    serEvent serId serT serC e
      = Json.obj [("verb",
          Json.obj [("type", Json.str (verbTag e.verb)),
                    ("payload", verbPayload serId serT serC e.verb)])] ∧
    (match e.verb with
      | .insert r => verbTag e.verb = "insert" ∧
          verbPayload serId serT serC e.verb
            = Json.obj [("location", serLocation serId serC r.location), ("data", serT r.data)]
      | .update r => verbTag e.verb = "update" ∧
          verbPayload serId serT serC e.verb
            = Json.obj [("location", serLocation serId serC r.location), ("data", serT r.data)]
      | .upsert r => verbTag e.verb = "upsert" ∧
          verbPayload serId serT serC e.verb
            = Json.obj [("location", serLocation serId serC r.location), ("data", serT r.data)]
      | .delete r => verbTag e.verb = "delete" ∧
          verbPayload serId serT serC e.verb = Json.num r.val) := by
  rcases e with ⟨v⟩
  exact ⟨rfl, by cases v <;> exact ⟨rfl, rfl⟩⟩

/-- Claim C6 (found to be violated by the code): when serialization of
the wrapped value fails, `WsBody::json` does not return a recoverable
error result — `serde_json::to_string(&self).expect(...)` panics.  The
theorem evaluates the code's behavior at a failing serializer. -/
theorem wsBody_json_panics_on_serialization_failure :
    WsBody.json (fun _ : WsBody Unit => Except.error "key must be a string")
        (WsBody.new ())
      = PanicOr.panicked "Could not serialize WsBody<T> to JSON" :=
  rfl

/-- Any verb that application code can build satisfies the id-presence
invariant, since the trait layer fixes the location of every resource it
hands out. -/
theorem constructibleVerb_idPresence {ID T C : Type} {collection : T → C}
    {idf : T → ID} {v : EventVerb ID T C}
    (h : ConstructibleVerb collection idf v) : idPresence v := by
  cases h <;> simp [idPresence, appendableResourceFor, updatableResourceFor]

/-- Claim C7: every `Event` reachable through the public construction
paths satisfies the id-presence invariant: its location id is `None`
when the verb is `Insert` and `Some` when the verb is `Update` or
`Upsert`.  For the `to_event` hooks, the caller-supplied closure is
constrained to return a `ConstructibleVerb`, which models what Rust
field privacy lets application code build. -/
theorem public_construction_id_presence {ID T C : Type} (collection : T → C)
    (idf : T → ID) (d : T) :
    idPresence (to_insert_event collection d).verb ∧
    idPresence (to_upsert_event collection idf d).verb ∧
    idPresence (to_update_event collection idf d).verb ∧
    (∀ build_verb : AppendableResource Unit T C → EventVerb Unit T C,
      ConstructibleVerb collection (fun _ => ())
          (build_verb (appendableResourceFor collection d)) →
      idPresence (appendable_to_event collection d build_verb).verb) ∧
    (∀ build_verb : UpdatableResource ID T C → EventVerb ID T C,
      ConstructibleVerb collection idf
          (build_verb (updatableResourceFor collection idf d)) →
      idPresence (syncable_to_event collection idf d build_verb).verb) := by
  exact ⟨rfl, rfl, rfl,
    fun _ h => constructibleVerb_idPresence h,
    fun _ h => constructibleVerb_idPresence h⟩

/-- Concrete instance of C7 at the test record, with the hypotheses of
the hook conjuncts discharged by explicit `ConstructibleVerb` proofs. -/
theorem public_construction_id_presence_witness :
    idPresence (to_insert_event DoggoRecord.collection doggo).verb ∧
    idPresence (to_upsert_event DoggoRecord.collection DoggoRecord.id doggo).verb ∧
    idPresence (to_update_event DoggoRecord.collection DoggoRecord.id doggo).verb ∧
    idPresence (appendable_to_event DoggoRecord.collection doggo EventVerb.insert).verb ∧
    idPresence (syncable_to_event DoggoRecord.collection DoggoRecord.id doggo EventVerb.upsert).verb := by
  obtain ⟨h1, h2, h3, h4, h5⟩ :=
    public_construction_id_presence DoggoRecord.collection DoggoRecord.id doggo
  exact ⟨h1, h2, h3,
    h4 EventVerb.insert (ConstructibleVerb.insert doggo),
    h5 EventVerb.upsert (ConstructibleVerb.upsert doggo)⟩

/-- Claim C10: serialization is deterministic: `WsBody::new` and the
`From` conversion build the same envelope, and the serialized wire text
is a pure function of the event value — serializing equal values yields
identical output strings. -/
theorem serialization_deterministic {ID T C : Type} (serId : ID → Json)
    (serT : T → Json) (serC : C → Json) (e : Event ID T C) :
    WsBody.fromData e = WsBody.new e ∧
    wsBodyJson (serEvent serId serT serC) (WsBody.fromData e)
      = wsBodyJson (serEvent serId serT serC) (WsBody.new e) ∧
    ∀ e2 : Event ID T C, e2 = e →
      wsBodyJson (serEvent serId serT serC) (WsBody.new e2)
        = wsBodyJson (serEvent serId serT serC) (WsBody.new e) :=
  ⟨rfl, rfl, fun _ h => by rw [h]⟩

/-- Concrete instance of C10 at the test record's insert event. -/
theorem serialization_deterministic_witness :
    wsBodyJson (serEvent (fun _ : Unit => Json.null) serDoggoRecord serCollection)
        (WsBody.new (to_insert_event DoggoRecord.collection doggo))
      = wsBodyJson (serEvent (fun _ : Unit => Json.null) serDoggoRecord serCollection)
        (WsBody.new (to_insert_event DoggoRecord.collection doggo)) :=
  (serialization_deterministic (fun _ : Unit => Json.null) serDoggoRecord serCollection
    (to_insert_event DoggoRecord.collection doggo)).2.2
    (to_insert_event DoggoRecord.collection doggo) rfl

end Rsp
